import Mathlib

/-!
Verification of the retrieval-approval workflow of the interactive RAG agent
(`agent/state.py`, `agent/agent.py`, `agent/tools.py`).

Modelling conventions:
* Python floats (similarity scores, thresholds, weights) are modelled as `ℚ`;
  every comparison exercised here is on exact decimal values.
* Python string-keyed dicts (`metadata`) are modelled as association lists of
  `String × MetaVal`; dict update keeps the original key order and overrides
  values in place, as CPython does.
* The external collaborators (embedding provider, Postgres search backend,
  chunk counter) are modelled by a `BackendEnv` record supplying, per search
  call, either the backend's rank-ordered rows or the exception message it
  raised.  The `try`/`except` block of `search_knowledge_base` catches every
  exception, so the embedded operation is a total function on states: a
  backend/embedding fault is the `Except.error` branch of the environment,
  never a propagated failure.
* The AG-UI transport (`ToolReturn` messages, `StateSnapshotEvent`) only
  serializes the state that the operations below compute; the snapshot content
  is the `RAGState` value itself, so it is not modelled separately.
-/

/-- An opaque metadata value (string or numeric), standing for the `Any`
values of the Python `metadata: dict[str, Any]` fields. -/
inductive MetaVal where
  | str (s : String)
  | num (q : ℚ)
  deriving DecidableEq, Repr

/-- One entry update of a Python dict modelled as an association list:
override in place when the key exists, append otherwise. -/
def dictInsert (d : List (String × MetaVal)) (k : String) (v : MetaVal) :
    List (String × MetaVal) :=
  if d.any (fun p => p.1 = k) then d.map (fun p => if p.1 = k then (k, v) else p)
  else d ++ [(k, v)]

/-- `state.py` `RetrievedChunk`: a chunk retrieved from the knowledge base. -/
structure RetrievedChunk where
  chunk_id : String
  document_id : String
  content : String
  similarity : ℚ
  metadata : List (String × MetaVal) := []
  document_title : String
  document_source : String
  chunk_index : Nat := 1
  approved : Bool := false
  deriving DecidableEq, Repr

/-- `state.py` `SearchQuery`: a search query record with metadata. -/
structure SearchQuery where
  query : String
  timestamp : String
  match_count : Nat := 10
  search_type : String := "semantic"
  deriving DecidableEq, Repr

/-- `state.py` `SearchConfig`: user-configurable search parameters.  The
pydantic model declares no range constraint on any field (the `(0-1)` in the
field description is documentation only), so every field is plain data. -/
structure SearchConfig where
  similarity_threshold : ℚ := mkRat 1 2
  max_results : Nat := 10
  search_type : String := "semantic"
  deriving DecidableEq, Repr

/-- `state.py` `RAGState`: the shared state between agent and frontend. -/
structure RAGState where
  retrieved_chunks : List RetrievedChunk := []
  current_query : Option SearchQuery := none
  search_history : List SearchQuery := []
  total_chunks_in_kb : Nat := 0
  knowledge_base_status : String := "ready"
  approved_chunk_ids : List String := []
  awaiting_approval : Bool := false
  search_config : SearchConfig := {}
  is_searching : Bool := false
  is_synthesizing : Bool := false
  error_message : Option String := none
  deriving DecidableEq, Repr

/-- The default `RAGState()` (all pydantic defaults). -/
def initialRAGState : RAGState := {}

/-- A row returned by the hybrid search backend
(`tools.py` `hybrid_search` result dictionaries). -/
structure HybridHit where
  chunk_id : String
  document_id : String
  content : String
  combined_score : ℚ
  vector_similarity : ℚ
  text_similarity : ℚ
  metadata : List (String × MetaVal) := []
  document_title : String
  document_source : String
  deriving DecidableEq, Repr

/-- A row returned by the semantic search backend
(`tools.py` `SearchResult`); the backend pre-filters these by threshold. -/
structure SemanticHit where
  chunk_id : String
  document_id : String
  content : String
  similarity : ℚ
  metadata : List (String × MetaVal) := []
  document_title : String
  document_source : String
  deriving DecidableEq, Repr

/-- Per-search-call behaviour of the external collaborators: the outcome the
hybrid backend would give, the outcome the semantic backend would give, and
the knowledge-base chunk count.  An `Except.error` value is the message of
the exception the embedding provider or backend raised on that path. -/
structure BackendEnv where
  hybridHits : Except String (List HybridHit)
  semanticHits : Except String (List SemanticHit)
  kbCount : Nat
  deriving Repr

/-- `agent.py` lines 108-125: conversion of one hybrid backend row into a
`RetrievedChunk` (similarity takes the combined score; the two component
scores are merged into the metadata dict). -/
def hybridToChunk (r : HybridHit) : RetrievedChunk :=
  { chunk_id := r.chunk_id
    document_id := r.document_id
    content := r.content
    similarity := r.combined_score
    metadata := dictInsert
      (dictInsert r.metadata "vector_similarity" (MetaVal.num r.vector_similarity))
      "text_similarity" (MetaVal.num r.text_similarity)
    document_title := r.document_title
    document_source := r.document_source
    chunk_index := 1
    approved := false }

/-- `agent.py` lines 134-146: conversion of one semantic `SearchResult` into a
`RetrievedChunk`. -/
def semanticToChunk (r : SemanticHit) : RetrievedChunk :=
  { chunk_id := r.chunk_id
    document_id := r.document_id
    content := r.content
    similarity := r.similarity
    metadata := r.metadata
    document_title := r.document_title
    document_source := r.document_source
    chunk_index := 1
    approved := false }

/-- The functional update of one `defaultdict(int)` counter bump. -/
def bumpCounter (counters : String → Nat) (d : String) (n : Nat) : String → Nat :=
  fun x => if x = d then n else counters x

/-- The loop of `agent.py` `_assign_chunk_indices`: single pass in list order,
incrementing each document's running counter and writing the new value into
`chunk_index`. -/
def assignChunkIndicesGo (counters : String → Nat) : List RetrievedChunk → List RetrievedChunk
  | [] => []
  | c :: rest =>
    { c with chunk_index := counters c.document_id + 1 } ::
      assignChunkIndicesGo (bumpCounter counters c.document_id (counters c.document_id + 1)) rest

/-- `agent.py` `_assign_chunk_indices`: assign per-document chunk indices; the
per-document counters start from 0 on every call (`defaultdict(int)`), so the
numbering is a function of the given list alone — no persisted document
sequence or prior call is consulted. -/
def assignChunkIndices (chunks : List RetrievedChunk) : List RetrievedChunk :=
  assignChunkIndicesGo (fun _ => 0) chunks

/-- `agent.py` lines 79-84: the `SearchQuery` record built at the start of a
search (requested count and type snapshot the current config). -/
def mkSearchQuery (query ts : String) (config : SearchConfig) : SearchQuery :=
  { query := query
    timestamp := ts
    match_count := config.max_results
    search_type := config.search_type }

/-- `agent.py` lines 75-85: the state writes performed before the `try`
block: raise `is_searching`, clear `error_message`, record the query. -/
def searchStartUpdate (s : RAGState) (sq : SearchQuery) : RAGState :=
  { s with is_searching := true, error_message := none, current_query := some sq }

/-- `agent.py` lines 168-171: append the query record, then keep only the
last 10 entries when the history exceeds 10. -/
def clipHistory (h : List SearchQuery) : List SearchQuery :=
  if 10 < h.length then h.drop (h.length - 10) else h

/-- `agent.py` lines 148-175: the state writes of the successful search path,
in source order: indexed chunks installed and `is_searching` lowered, then
`awaiting_approval` and the approval reset, then the history update, then the
knowledge-base stats refresh. -/
def searchSuccessUpdate (s : RAGState) (sq : SearchQuery) (chunks : List RetrievedChunk)
    (kbCount : Nat) : RAGState :=
  let s2 := { s with retrieved_chunks := assignChunkIndices chunks, is_searching := false }
  let s3 := { s2 with awaiting_approval := decide (0 < chunks.length), approved_chunk_ids := [] }
  let s4 := { s3 with search_history := clipHistory (s3.search_history ++ [sq]) }
  { s4 with total_chunks_in_kb := kbCount, knowledge_base_status := "ready" }

/-- `agent.py` lines 201-206: the `except` block of `search_knowledge_base`:
lower `is_searching`, clear the chunk list, record the exception message, mark
the knowledge-base status as errored.  No other field is touched. -/
def searchFailureUpdate (s : RAGState) (e : String) : RAGState :=
  { s with is_searching := false
           retrieved_chunks := []
           error_message := some e
           knowledge_base_status := "error: " ++ e }

/-- `agent.py` lines 101-146: chunk acquisition for one search.  The branch on
`config.search_type` selects the backend; on the hybrid branch the coordinator
itself filters by `combined_score >= similarity_threshold` (the hybrid backend
call carries no threshold parameter at all), while the semantic backend's rows
arrive pre-filtered and are only converted. -/
def fetchChunks (config : SearchConfig) (env : BackendEnv) :
    Except String (List RetrievedChunk) :=
  if config.search_type = "hybrid" then
    match env.hybridHits with
    | Except.error e => Except.error e
    | Except.ok results =>
      Except.ok ((results.filter
        (fun r => config.similarity_threshold ≤ r.combined_score)).map hybridToChunk)
  else
    match env.semanticHits with
    | Except.error e => Except.error e
    | Except.ok results => Except.ok (results.map semanticToChunk)

/-- Whether the embedding/backend phase of a search succeeds for this state's
configured search type. -/
def exceptOk {α : Type} : Except String α → Bool
  | Except.ok _ => true
  | Except.error _ => false

/-- `searchBackendOk s env` is true exactly when the backend selected by
`s.search_config.search_type` returns rows rather than raising. -/
def searchBackendOk (s : RAGState) (env : BackendEnv) : Bool :=
  exceptOk (fetchChunks s.search_config env)

/-- `agent.py` `search_knowledge_base`: one full search operation on the
shared state.  The `try`/`except` wrapper makes this a total function: a
provider/backend exception takes the `searchFailureUpdate` branch and is never
propagated. -/
def searchKnowledgeBase (s : RAGState) (query ts : String) (env : BackendEnv) : RAGState :=
  let sq := mkSearchQuery query ts s.search_config
  let s1 := searchStartUpdate s sq
  match fetchChunks s.search_config env with
  | Except.ok chunks => searchSuccessUpdate s1 sq chunks env.kbCount
  | Except.error e => searchFailureUpdate s1 e

/-- `agent.py` lines 361-365: the chunks of the current list whose ids appear
in `approved_chunk_ids`, in the chunk list's own order. -/
def approvedChunks (s : RAGState) : List RetrievedChunk :=
  s.retrieved_chunks.filter (fun c => s.approved_chunk_ids.contains c.chunk_id)

/-- Whether `synthesize_with_sources` finds a nonempty approved subset. -/
def synthesisReady (s : RAGState) : Bool :=
  !(approvedChunks s).isEmpty

/-- `agent.py` lines 398-399: rendering of one approved chunk as a delimited
context block. -/
def renderSourceBlock (c : RetrievedChunk) : String :=
  "[Source: Chunk " ++ toString c.chunk_index ++ " of " ++ c.document_title ++ "]\n"
    ++ c.content

/-- `agent.py` `synthesize_with_sources`: if no chunk of the current list is
approved (approvals empty or stale), return the not-ready result with the
state untouched; otherwise raise and lower `is_synthesizing`, drop
`awaiting_approval`, clear `error_message`, and return the joined context
bundle.  `none` models the not-ready sentinel message. -/
def synthesizeWithSources (s : RAGState) : RAGState × Option String :=
  let approved := approvedChunks s
  if approved.isEmpty then (s, none)
  else
    let s1 := { s with is_synthesizing := true, awaiting_approval := false,
                       error_message := none }
    let context := String.intercalate "\n\n---\n\n" (approved.map renderSourceBlock)
    ({ s1 with is_synthesizing := false }, some context)

/-- Observer write of `approved_chunk_ids` (AG-UI `setState` from the
frontend deserializes straight into the pydantic field). -/
def setApprovedChunkIds (s : RAGState) (ids : List String) : RAGState :=
  { s with approved_chunk_ids := ids }

/-- Observer write of `search_config`.  The remote write path deserializes
into `state.py`'s `SearchConfig`, which declares no range constraint, so the
write is plain field replacement. -/
def setSearchConfig (s : RAGState) (c : SearchConfig) : RAGState :=
  { s with search_config := c }

/-- `tools.py` `semantic_search` lines 44-50: parameter validation of the
semantic tool — the match count falls back to the default and is capped at
`max_match_count`; the similarity threshold falls back to the default and is
passed to the backend as given, with no clamping. -/
def semanticSearchParams (matchCount : Option Nat) (simThreshold : Option ℚ)
    (defaultMatchCount maxMatchCount : Nat) (defaultThreshold : ℚ) : Nat × ℚ :=
  (min (matchCount.getD defaultMatchCount) maxMatchCount,
   simThreshold.getD defaultThreshold)

/-- `tools.py` `hybrid_search` lines 106-115: parameter validation of the
hybrid tool — the match count is capped at `max_match_count` and the text
weight is clamped into `[0, 1]`.  The function takes no similarity threshold
at all. -/
def hybridSearchParams (matchCount : Option Nat) (textWeight : Option ℚ)
    (defaultMatchCount maxMatchCount : Nat) (defaultTextWeight : ℚ) : Nat × ℚ :=
  (min (matchCount.getD defaultMatchCount) maxMatchCount,
   max 0 (min 1 (textWeight.getD defaultTextWeight)))

/-- One operation on a session's shared state: a search (with the
collaborators' behaviour for that call), an observer write of the approval
set or the config, or a synthesis attempt. -/
inductive Op where
  | search (query ts : String) (env : BackendEnv)
  | approve (ids : List String)
  | setConfig (c : SearchConfig)
  | synthesize

/-- Apply one operation to the state. -/
def applyOp (s : RAGState) (op : Op) : RAGState :=
  match op with
  | Op.search q t env => searchKnowledgeBase s q t env
  | Op.approve ids => setApprovedChunkIds s ids
  | Op.setConfig c => setSearchConfig s c
  | Op.synthesize => (synthesizeWithSources s).1

/-- Run a sequence of operations from a state. -/
def execOps (s : RAGState) (ops : List Op) : RAGState :=
  ops.foldl applyOp s

/-! ### Concrete fixtures used by witnesses and counterexamples -/

/-- A hybrid-search config with threshold 0.5 (the spec's running example). -/
def hybridHalfConfig : SearchConfig :=
  { similarity_threshold := mkRat 1 2, max_results := 10, search_type := "hybrid" }

/-- The default session state switched to hybrid search at threshold 0.5. -/
def hybridHalfState : RAGState := { initialRAGState with search_config := hybridHalfConfig }

/-- A small hybrid backend row. -/
def mkHybridHit (cid did : String) (score : ℚ) : HybridHit :=
  { chunk_id := cid, document_id := did, content := "body " ++ cid
    combined_score := score, vector_similarity := score, text_similarity := score
    metadata := [], document_title := "Doc " ++ did, document_source := did ++ ".md" }

/-- The spec's running example: six hybrid hits with combined scores
0.9, 0.7, 0.6, 0.4, 0.3, 0.2 across two documents. -/
def sixHits : List HybridHit :=
  [mkHybridHit "c1" "d1" (mkRat 9 10), mkHybridHit "c2" "d1" (mkRat 7 10),
   mkHybridHit "c3" "d2" (mkRat 6 10), mkHybridHit "c4" "d2" (mkRat 4 10),
   mkHybridHit "c5" "d1" (mkRat 3 10), mkHybridHit "c6" "d2" (mkRat 2 10)]

/-- Collaborator behaviour returning the six example hits on the hybrid path. -/
def sixHitEnv : BackendEnv := ⟨Except.ok sixHits, Except.ok [], 6⟩

/-! ### Lemmas about the chunk indexer -/

theorem assignChunkIndicesGo_length (chunks : List RetrievedChunk) :
    ∀ counters, (assignChunkIndicesGo counters chunks).length = chunks.length := by
  induction chunks with
  | nil => intro counters; rfl
  | cons c rest ih => intro counters; simp [assignChunkIndicesGo, ih]

theorem assignChunkIndices_length (chunks : List RetrievedChunk) :
    (assignChunkIndices chunks).length = chunks.length :=
  assignChunkIndicesGo_length chunks _

theorem assignChunkIndicesGo_map_core (chunks : List RetrievedChunk) :
    ∀ counters,
      (assignChunkIndicesGo counters chunks).map (fun c => (c.chunk_id, c.similarity))
        = chunks.map (fun c => (c.chunk_id, c.similarity)) := by
  induction chunks with
  | nil => intro counters; rfl
  | cons c rest ih => intro counters; simp [assignChunkIndicesGo, ih]

theorem assignChunkIndices_map_core (chunks : List RetrievedChunk) :
    (assignChunkIndices chunks).map (fun c => (c.chunk_id, c.similarity))
      = chunks.map (fun c => (c.chunk_id, c.similarity)) :=
  assignChunkIndicesGo_map_core chunks _

theorem assignChunkIndicesGo_filter_map (d : String) (chunks : List RetrievedChunk) :
    ∀ counters : String → Nat,
      ((assignChunkIndicesGo counters chunks).filter (fun c => c.document_id = d)).map
          (fun c => c.chunk_index)
        = List.range' (counters d + 1) (chunks.countP (fun c => c.document_id = d)) := by
  induction chunks with
  | nil => intro counters; simp [assignChunkIndicesGo]
  | cons c rest ih =>
    intro counters
    by_cases h : c.document_id = d
    · simp [assignChunkIndicesGo, List.filter_cons, List.countP_cons, h, ih, bumpCounter,
        List.range'_succ]
    · simp [assignChunkIndicesGo, List.filter_cons, List.countP_cons, h, ih, bumpCounter,
        Ne.symm h]

/-- C2: for every rank-ordered chunk list and every document id, the assigned
chunk_index values of that document's chunks, read in their relative order
within the list, are exactly 1..k (k = that document's chunk count in the
list) with no gaps.  The numbering is a pure function of the current list
(counters restart at 0 each call), so it depends on no persisted document
sequence and no prior call. -/
theorem chunk_indices_per_document_range (chunks : List RetrievedChunk) (d : String) :
    ((assignChunkIndices chunks).filter (fun c => c.document_id = d)).map
        (fun c => c.chunk_index)
      = List.range' 1 (chunks.countP (fun c => c.document_id = d)) := by
  simpa using assignChunkIndicesGo_filter_map d chunks (fun _ => 0)

/-- C1: a hybrid-type search sends no similarity threshold to the backend
(the hits list below is universally quantified, and the modelled
`hybrid_search` tool has no threshold parameter); the coordinator itself
keeps exactly the hits with `combined_score >= similarity_threshold`, in
their original rank order.  On the spec's example scores
[0.9, 0.7, 0.6, 0.4, 0.3, 0.2] with threshold 0.5, exactly the three hits
scoring at least 0.5 survive, in order. -/
theorem hybrid_search_client_filter :
    (∀ (s : RAGState) (q t : String) (hits : List HybridHit)
        (sem : Except String (List SemanticHit)) (n : Nat),
        s.search_config.search_type = "hybrid" →
        (searchKnowledgeBase s q t ⟨Except.ok hits, sem, n⟩).retrieved_chunks.map
            (fun c => (c.chunk_id, c.similarity))
          = (hits.filter
              (fun h => s.search_config.similarity_threshold ≤ h.combined_score)).map
              (fun h => (h.chunk_id, h.combined_score)))
    ∧ (searchKnowledgeBase hybridHalfState "q" "t" sixHitEnv).retrieved_chunks.map
          (fun c => c.similarity) = [mkRat 9 10, mkRat 7 10, mkRat 6 10] := by
  constructor
  · intro s q t hits sem n hs
    simp only [searchKnowledgeBase, fetchChunks, hs, if_pos, searchSuccessUpdate,
      searchStartUpdate, mkSearchQuery]
    rw [assignChunkIndices_map_core, List.map_map]
    simp [hybridToChunk, Function.comp]
  · decide

/-- Witness for C1 at the spec's concrete example. -/
theorem hybrid_search_client_filter_witness :
    hybridHalfState.search_config.search_type = "hybrid"
    ∧ (searchKnowledgeBase hybridHalfState "q" "t"
          ⟨Except.ok sixHits, Except.ok [], 6⟩).retrieved_chunks.map
          (fun c => (c.chunk_id, c.similarity))
        = (sixHits.filter
            (fun h => hybridHalfState.search_config.similarity_threshold ≤ h.combined_score)).map
            (fun h => (h.chunk_id, h.combined_score)) :=
  ⟨rfl, hybrid_search_client_filter.1 hybridHalfState "q" "t" sixHits (Except.ok []) 6 rfl⟩

/-! ### Dispatch lemmas for the two exit paths of a search -/

theorem searchKnowledgeBase_ok {s : RAGState} {env : BackendEnv}
    {chunks : List RetrievedChunk} (q t : String)
    (h : fetchChunks s.search_config env = Except.ok chunks) :
    searchKnowledgeBase s q t env
      = searchSuccessUpdate (searchStartUpdate s (mkSearchQuery q t s.search_config))
          (mkSearchQuery q t s.search_config) chunks env.kbCount := by
  simp [searchKnowledgeBase, h]

theorem searchKnowledgeBase_err {s : RAGState} {env : BackendEnv} {e : String} (q t : String)
    (h : fetchChunks s.search_config env = Except.error e) :
    searchKnowledgeBase s q t env
      = searchFailureUpdate (searchStartUpdate s (mkSearchQuery q t s.search_config)) e := by
  simp [searchKnowledgeBase, h]

theorem backend_ok_exists {s : RAGState} {env : BackendEnv} (h : searchBackendOk s env = true) :
    ∃ chunks, fetchChunks s.search_config env = Except.ok chunks := by
  unfold searchBackendOk at h
  cases hf : fetchChunks s.search_config env with
  | ok chunks => exact ⟨chunks, rfl⟩
  | error e => rw [hf] at h; simp [exceptOk] at h

theorem backend_fail_exists {s : RAGState} {env : BackendEnv} (h : searchBackendOk s env = false) :
    ∃ e, fetchChunks s.search_config env = Except.error e := by
  unfold searchBackendOk at h
  cases hf : fetchChunks s.search_config env with
  | ok chunks => rw [hf] at h; simp [exceptOk] at h
  | error e => exact ⟨e, rfl⟩

/-! ### History clipping lemmas -/

theorem clipHistory_length (h : List SearchQuery) : (clipHistory h).length = min h.length 10 := by
  unfold clipHistory
  split
  · next hlen => rw [List.length_drop]; omega
  · next hlen => omega

theorem clipHistory_getLast_concat (h : List SearchQuery) (sq : SearchQuery) :
    (clipHistory (h ++ [sq])).getLast? = some sq := by
  unfold clipHistory
  split
  · next hlen =>
    have hle : (h ++ [sq]).length - 10 ≤ h.length := by
      simp only [List.length_append, List.length_singleton]
      omega
    rw [List.drop_append_of_le_length hle, List.getLast?_concat]
  · exact List.getLast?_concat _

theorem clipHistory_suffix (h : List SearchQuery) : List.IsSuffix (clipHistory h) h := by
  unfold clipHistory
  split
  · exact List.drop_suffix _ _
  · exact List.suffix_refl _

/-! ### Flag behaviour of the individual operations -/

theorem searchKnowledgeBase_flags (s : RAGState) (q t : String) (env : BackendEnv) :
    (searchKnowledgeBase s q t env).is_searching = false
      ∧ (searchKnowledgeBase s q t env).is_synthesizing = s.is_synthesizing := by
  cases hf : fetchChunks s.search_config env with
  | ok chunks => rw [searchKnowledgeBase_ok q t hf]; exact ⟨rfl, rfl⟩
  | error e => rw [searchKnowledgeBase_err q t hf]; exact ⟨rfl, rfl⟩

theorem synthesizeWithSources_flags (s : RAGState) :
    (synthesizeWithSources s).1.is_searching = s.is_searching
      ∧ ((synthesizeWithSources s).1.is_synthesizing = false
          ∨ (synthesizeWithSources s).1.is_synthesizing = s.is_synthesizing) := by
  simp only [synthesizeWithSources]
  split
  · exact ⟨rfl, Or.inr rfl⟩
  · exact ⟨rfl, Or.inl rfl⟩

theorem execOps_flags (ops : List Op) :
    ∀ s : RAGState, s.is_searching = false → s.is_synthesizing = false →
      (execOps s ops).is_searching = false ∧ (execOps s ops).is_synthesizing = false := by
  induction ops with
  | nil => intro s h1 h2; exact ⟨h1, h2⟩
  | cons op rest ih =>
    intro s h1 h2
    have hstep : (applyOp s op).is_searching = false ∧ (applyOp s op).is_synthesizing = false := by
      cases op with
      | search q t env =>
        have h := searchKnowledgeBase_flags s q t env
        exact ⟨h.1, h.2.trans h2⟩
      | approve ids => exact ⟨h1, h2⟩
      | setConfig c => exact ⟨h1, h2⟩
      | synthesize =>
        have h := synthesizeWithSources_flags s
        refine ⟨h.1.trans h1, ?_⟩
        rcases h.2 with h' | h'
        · exact h'
        · exact h'.trans h2
    have htail := ih (applyOp s op) hstep.1 hstep.2
    simpa [execOps] using htail

/-- C3: in every state reachable by any sequence of operations (searches with
any outcome, observer writes, synthesis attempts ready or not), both
`is_searching` and `is_synthesizing` are false once the operation has
returned: no exit path leaves either flag raised. -/
theorem flags_false_after_any_trace (ops : List Op) :
    (execOps initialRAGState ops).is_searching = false
      ∧ (execOps initialRAGState ops).is_synthesizing = false :=
  execOps_flags ops initialRAGState rfl rfl

/-! ### Fixtures for the failure-path results -/

/-- Collaborator behaviour in which the semantic backend (or the embedding
call feeding it) raises. -/
def envFailSem : BackendEnv := ⟨Except.ok [], Except.error "connection refused", 0⟩

/-- A retrieved chunk with id `"a"`. -/
def chunkA : RetrievedChunk :=
  { chunk_id := "a", document_id := "d1", content := "alpha", similarity := mkRat 9 10,
    metadata := [], document_title := "Doc d1", document_source := "d1.md",
    chunk_index := 1, approved := false }

/-- A session state in which chunk `"a"` is retrieved and approved. -/
def approvedPriorState : RAGState :=
  { initialRAGState with
    retrieved_chunks := [chunkA]
    approved_chunk_ids := ["a"]
    awaiting_approval := true }

/-- C5 counterexample: a search whose backend call fails does not clear
`approved_chunk_ids` — from a state with approvals `["a"]`, the failed search
returns with approvals still `["a"]`, not empty as the claim requires for
every outcome. -/
theorem failed_search_keeps_stale_approvals :
    (searchKnowledgeBase approvedPriorState "q2" "t2" envFailSem).approved_chunk_ids = ["a"]
      ∧ (searchKnowledgeBase approvedPriorState "q2" "t2" envFailSem).approved_chunk_ids ≠ [] := by
  decide

/-- C5 (amended): every search whose backend/embedding call succeeds leaves
`approved_chunk_ids` empty at return, regardless of the prior approval
state; a failed search leaves the approval set unchanged instead. -/
theorem successful_search_clears_approvals (s : RAGState) (q t : String) (env : BackendEnv)
    (h : searchBackendOk s env = true) :
    (searchKnowledgeBase s q t env).approved_chunk_ids = [] := by
  obtain ⟨chunks, hf⟩ := backend_ok_exists h
  rw [searchKnowledgeBase_ok q t hf]; rfl

/-- Witness for the amended C5: a successful search from a state with a
nonempty approval set. -/
theorem successful_search_clears_approvals_witness :
    searchBackendOk approvedPriorState sixHitEnv = true
      ∧ (searchKnowledgeBase approvedPriorState "q" "t" sixHitEnv).approved_chunk_ids = [] :=
  ⟨by decide, successful_search_clears_approvals approvedPriorState "q" "t" sixHitEnv (by decide)⟩

/-! ### Search history: bounded FIFO -/

/-- Collaborator behaviour returning an empty (but successful) result set. -/
def okEnvEmpty : BackendEnv := ⟨Except.ok [], Except.ok [], 0⟩

/-- Eleven sequential successful searches with distinct query texts. -/
def elevenSearchOps : List Op :=
  [Op.search "q1" "t" okEnvEmpty, Op.search "q2" "t" okEnvEmpty, Op.search "q3" "t" okEnvEmpty,
   Op.search "q4" "t" okEnvEmpty, Op.search "q5" "t" okEnvEmpty, Op.search "q6" "t" okEnvEmpty,
   Op.search "q7" "t" okEnvEmpty, Op.search "q8" "t" okEnvEmpty, Op.search "q9" "t" okEnvEmpty,
   Op.search "q10" "t" okEnvEmpty, Op.search "q11" "t" okEnvEmpty]

/-- C6 counterexample: a search whose backend/embedding call fails appends
nothing to the history — after one failed search from the initial state the
history is still empty and the search's `SearchQuery` record is absent,
contradicting "every search call appends its SearchQuery record". -/
theorem failed_search_appends_no_history :
    (searchKnowledgeBase initialRAGState "q1" "t1" envFailSem).search_history = []
      ∧ mkSearchQuery "q1" "t1" initialRAGState.search_config
          ∉ (searchKnowledgeBase initialRAGState "q1" "t1" envFailSem).search_history := by
  decide

/-- C6 (amended): every successful search appends its `SearchQuery` record to
the history, a bounded FIFO of length at most 10 evicting the oldest first
(the new history is the new record preceded by a suffix of the old history);
after 11 sequential successful searches the history has length 10, the 1st
search's record is absent and the 11th is present.  A search whose backend
call fails appends nothing. -/
theorem search_history_fifo :
    (∀ (s : RAGState) (q t : String) (env : BackendEnv), searchBackendOk s env = true →
        (searchKnowledgeBase s q t env).search_history.getLast?
            = some (mkSearchQuery q t s.search_config)
          ∧ (searchKnowledgeBase s q t env).search_history.length
            = min (s.search_history.length + 1) 10
          ∧ List.IsSuffix (searchKnowledgeBase s q t env).search_history
              (s.search_history ++ [mkSearchQuery q t s.search_config]))
    ∧ ((execOps initialRAGState elevenSearchOps).search_history.map (fun r => r.query)
          = ["q2", "q3", "q4", "q5", "q6", "q7", "q8", "q9", "q10", "q11"]
        ∧ mkSearchQuery "q1" "t" initialRAGState.search_config
            ∉ (execOps initialRAGState elevenSearchOps).search_history
        ∧ mkSearchQuery "q11" "t" initialRAGState.search_config
            ∈ (execOps initialRAGState elevenSearchOps).search_history) := by
  constructor
  · intro s q t env h
    obtain ⟨chunks, hf⟩ := backend_ok_exists h
    rw [searchKnowledgeBase_ok q t hf]
    refine ⟨clipHistory_getLast_concat _ _, ?_, clipHistory_suffix _⟩
    show (clipHistory (s.search_history ++ [mkSearchQuery q t s.search_config])).length = _
    rw [clipHistory_length]
    simp only [List.length_append, List.length_singleton]
  · exact ⟨by decide, by decide, by decide⟩

/-- Witness for the amended C6: one successful search from the initial state
appends its record as the last (and only) history entry. -/
theorem search_history_fifo_witness :
    searchBackendOk initialRAGState okEnvEmpty = true
      ∧ ((searchKnowledgeBase initialRAGState "qW" "tW" okEnvEmpty).search_history.getLast?
            = some (mkSearchQuery "qW" "tW" initialRAGState.search_config)
          ∧ (searchKnowledgeBase initialRAGState "qW" "tW" okEnvEmpty).search_history.length
            = min (initialRAGState.search_history.length + 1) 10
          ∧ List.IsSuffix (searchKnowledgeBase initialRAGState "qW" "tW" okEnvEmpty).search_history
              (initialRAGState.search_history
                ++ [mkSearchQuery "qW" "tW" initialRAGState.search_config])) :=
  ⟨by decide, search_history_fifo.1 initialRAGState "qW" "tW" okEnvEmpty (by decide)⟩

/-! ### Failure path of a search: recovery and frame -/

/-- C7: a search in which the embedding provider or backend raises returns
normally (the embedded operation is total — the `except` block catches the
fault) and at return `is_searching` is false, the chunk list is empty,
`error_message` is set (non-None, carrying the exception text), and the
knowledge-base status is marked as errored. -/
theorem provider_error_recovered (s : RAGState) (q t : String) (env : BackendEnv)
    (h : searchBackendOk s env = false) :
    (searchKnowledgeBase s q t env).is_searching = false
      ∧ (searchKnowledgeBase s q t env).retrieved_chunks = []
      ∧ (searchKnowledgeBase s q t env).error_message ≠ none
      ∧ ∃ e, (searchKnowledgeBase s q t env).error_message = some e
          ∧ (searchKnowledgeBase s q t env).knowledge_base_status = "error: " ++ e := by
  obtain ⟨e, hf⟩ := backend_fail_exists h
  rw [searchKnowledgeBase_err q t hf]
  exact ⟨rfl, rfl, by simp [searchFailureUpdate], ⟨e, rfl, rfl⟩⟩

/-- Witness for C7 at a concrete failing environment. -/
theorem provider_error_recovered_witness :
    searchBackendOk initialRAGState envFailSem = false
      ∧ ((searchKnowledgeBase initialRAGState "q" "t" envFailSem).is_searching = false
          ∧ (searchKnowledgeBase initialRAGState "q" "t" envFailSem).retrieved_chunks = []
          ∧ (searchKnowledgeBase initialRAGState "q" "t" envFailSem).error_message ≠ none
          ∧ ∃ e, (searchKnowledgeBase initialRAGState "q" "t" envFailSem).error_message = some e
              ∧ (searchKnowledgeBase initialRAGState "q" "t" envFailSem).knowledge_base_status
                = "error: " ++ e) :=
  ⟨by decide, provider_error_recovered initialRAGState "q" "t" envFailSem (by decide)⟩

/-- C10: a search failing with a backend/embedding exception leaves
`approved_chunk_ids`, `awaiting_approval`, `search_history`, `search_config`,
`total_chunks_in_kb` (and `is_synthesizing`) unchanged; the only fields it
writes are `is_searching`, `current_query`, `retrieved_chunks`,
`error_message` and `knowledge_base_status`, with the values shown. -/
theorem failed_search_frame (s : RAGState) (q t : String) (env : BackendEnv)
    (h : searchBackendOk s env = false) :
    (searchKnowledgeBase s q t env).approved_chunk_ids = s.approved_chunk_ids
      ∧ (searchKnowledgeBase s q t env).awaiting_approval = s.awaiting_approval
      ∧ (searchKnowledgeBase s q t env).search_history = s.search_history
      ∧ (searchKnowledgeBase s q t env).search_config = s.search_config
      ∧ (searchKnowledgeBase s q t env).total_chunks_in_kb = s.total_chunks_in_kb
      ∧ (searchKnowledgeBase s q t env).is_synthesizing = s.is_synthesizing
      ∧ (searchKnowledgeBase s q t env).is_searching = false
      ∧ (searchKnowledgeBase s q t env).current_query = some (mkSearchQuery q t s.search_config)
      ∧ (searchKnowledgeBase s q t env).retrieved_chunks = []
      ∧ ∃ e, (searchKnowledgeBase s q t env).error_message = some e
          ∧ (searchKnowledgeBase s q t env).knowledge_base_status = "error: " ++ e := by
  obtain ⟨e, hf⟩ := backend_fail_exists h
  rw [searchKnowledgeBase_err q t hf]
  exact ⟨rfl, rfl, rfl, rfl, rfl, rfl, rfl, rfl, rfl, e, rfl, rfl⟩

/-- Witness for C10: a failing search from a state carrying approvals, a
chunk list and a raised `awaiting_approval`. -/
theorem failed_search_frame_witness :
    searchBackendOk approvedPriorState envFailSem = false
      ∧ ((searchKnowledgeBase approvedPriorState "q" "t" envFailSem).approved_chunk_ids
            = approvedPriorState.approved_chunk_ids
          ∧ (searchKnowledgeBase approvedPriorState "q" "t" envFailSem).awaiting_approval
            = approvedPriorState.awaiting_approval
          ∧ (searchKnowledgeBase approvedPriorState "q" "t" envFailSem).search_history
            = approvedPriorState.search_history
          ∧ (searchKnowledgeBase approvedPriorState "q" "t" envFailSem).search_config
            = approvedPriorState.search_config
          ∧ (searchKnowledgeBase approvedPriorState "q" "t" envFailSem).total_chunks_in_kb
            = approvedPriorState.total_chunks_in_kb
          ∧ (searchKnowledgeBase approvedPriorState "q" "t" envFailSem).is_synthesizing
            = approvedPriorState.is_synthesizing
          ∧ (searchKnowledgeBase approvedPriorState "q" "t" envFailSem).is_searching = false
          ∧ (searchKnowledgeBase approvedPriorState "q" "t" envFailSem).current_query
            = some (mkSearchQuery "q" "t" approvedPriorState.search_config)
          ∧ (searchKnowledgeBase approvedPriorState "q" "t" envFailSem).retrieved_chunks = []
          ∧ ∃ e, (searchKnowledgeBase approvedPriorState "q" "t" envFailSem).error_message = some e
              ∧ (searchKnowledgeBase approvedPriorState "q" "t" envFailSem).knowledge_base_status
                = "error: " ++ e) :=
  ⟨by decide, failed_search_frame approvedPriorState "q" "t" envFailSem (by decide)⟩

/-! ### Synthesis precondition -/

/-- A state whose approval set only references an id absent from the current
chunk list (a stale approval). -/
def staleApprovalState : RAGState :=
  { initialRAGState with
    retrieved_chunks := [chunkA]
    approved_chunk_ids := ["zz"]
    awaiting_approval := true }

/-- C8: whenever the intersection of `approved_chunk_ids` with the ids in the
current chunk list is empty — no approvals at all, or only stale ids — the
synthesis call returns the not-ready sentinel (`none`) without raising, stale
ids are silently ignored, and the state is returned entirely unchanged: in
particular `is_synthesizing` stays false and `awaiting_approval` keeps its
prior value. -/
theorem synthesize_not_ready_no_mutation (s : RAGState) (h : approvedChunks s = []) :
    synthesizeWithSources s = (s, none) := by
  simp [synthesizeWithSources, h]

/-- Witness for C8 at a state whose only approval is stale. -/
theorem synthesize_not_ready_no_mutation_witness :
    approvedChunks staleApprovalState = []
      ∧ synthesizeWithSources staleApprovalState = (staleApprovalState, none) :=
  ⟨by decide, synthesize_not_ready_no_mutation staleApprovalState (by decide)⟩

/-! ### The awaiting_approval invariant over operation traces -/

/-- The value `awaiting_approval` would have if it tracked, over a trace, the
outcome of every search whose backend call succeeded (set to "that search left
a nonempty chunk list"), were reset by every synthesis that actually ran, and
were left alone by failed searches and observer writes. -/
def awaitingTrackerAmended (s : RAGState) (acc : Bool) : List Op → Bool
  | [] => acc
  | op :: rest =>
    let s' := applyOp s op
    let acc' :=
      match op with
      | Op.search _ _ env =>
        if searchBackendOk s env then decide (0 < s'.retrieved_chunks.length) else acc
      | Op.approve _ => acc
      | Op.setConfig _ => acc
      | Op.synthesize => if synthesisReady s then false else acc
    awaitingTrackerAmended s' acc' rest

/-- Follows the spec's words for the claimed invariant: after a trace,
"the most recent search produced a nonempty chunk list and no synthesis has
occurred since" — every search (failed ones included, which leave an empty
chunk list) overwrites the flag with whether it produced chunks, and a
synthesis that actually runs (the not-ready call performs no synthesis)
resets it. -/
def specAwaitingPred (s : RAGState) (acc : Bool) : List Op → Bool
  | [] => acc
  | op :: rest =>
    let s' := applyOp s op
    let acc' :=
      match op with
      | Op.search _ _ _ => decide (0 < s'.retrieved_chunks.length)
      | Op.approve _ => acc
      | Op.setConfig _ => acc
      | Op.synthesize => if synthesisReady s then false else acc
    specAwaitingPred s' acc' rest

theorem searchKnowledgeBase_awaiting (s : RAGState) (q t : String) (env : BackendEnv) :
    (searchKnowledgeBase s q t env).awaiting_approval
      = (if searchBackendOk s env
         then decide (0 < (searchKnowledgeBase s q t env).retrieved_chunks.length)
         else s.awaiting_approval) := by
  cases hf : fetchChunks s.search_config env with
  | ok chunks =>
    have hok : searchBackendOk s env = true := by unfold searchBackendOk; rw [hf]; rfl
    rw [searchKnowledgeBase_ok q t hf, hok]
    simp [searchSuccessUpdate, assignChunkIndices_length]
  | error e =>
    have hbad : searchBackendOk s env = false := by unfold searchBackendOk; rw [hf]; rfl
    rw [searchKnowledgeBase_err q t hf, hbad]
    simp [searchFailureUpdate, searchStartUpdate]

theorem synthesizeWithSources_awaiting (s : RAGState) :
    (synthesizeWithSources s).1.awaiting_approval
      = (if synthesisReady s then false else s.awaiting_approval) := by
  by_cases hr : (approvedChunks s).isEmpty
  · simp [synthesizeWithSources, synthesisReady, hr]
  · simp [synthesizeWithSources, synthesisReady, hr]

theorem execOps_awaiting (ops : List Op) :
    ∀ s : RAGState,
      (execOps s ops).awaiting_approval = awaitingTrackerAmended s s.awaiting_approval ops := by
  induction ops with
  | nil => intro s; rfl
  | cons op rest ih =>
    intro s
    cases op with
    | search q t env =>
      show (execOps (searchKnowledgeBase s q t env) rest).awaiting_approval = _
      rw [ih]
      simp only [awaitingTrackerAmended, applyOp]
      rw [searchKnowledgeBase_awaiting]
    | approve ids =>
      show (execOps (setApprovedChunkIds s ids) rest).awaiting_approval = _
      rw [ih]
      simp only [awaitingTrackerAmended, applyOp]
      rfl
    | setConfig c =>
      show (execOps (setSearchConfig s c) rest).awaiting_approval = _
      rw [ih]
      simp only [awaitingTrackerAmended, applyOp]
      rfl
    | synthesize =>
      show (execOps ((synthesizeWithSources s).1) rest).awaiting_approval = _
      rw [ih]
      simp only [awaitingTrackerAmended, applyOp]
      rw [synthesizeWithSources_awaiting]

/-- A semantic backend hit with id `"a"`. -/
def semHitA : SemanticHit :=
  { chunk_id := "a", document_id := "d1", content := "alpha", similarity := mkRat 9 10,
    metadata := [], document_title := "Doc d1", document_source := "d1.md" }

/-- Collaborator behaviour returning one semantic hit. -/
def envOneHitSem : BackendEnv := ⟨Except.ok [], Except.ok [semHitA], 1⟩

/-- A successful nonempty search followed by a failed search. -/
def staleAwaitOps : List Op :=
  [Op.search "q1" "t1" envOneHitSem, Op.search "q2" "t2" envFailSem]

/-- C4 counterexample: after a successful nonempty search followed by a
failed search, `awaiting_approval` is still true although the most recent
search produced no chunks (the chunk list at return is empty), so the claimed
iff — which covers failed searches — is false on this trace. -/
theorem awaiting_approval_spec_invariant_fails :
    (execOps initialRAGState staleAwaitOps).awaiting_approval = true
      ∧ specAwaitingPred initialRAGState false staleAwaitOps = false
      ∧ (execOps initialRAGState staleAwaitOps).retrieved_chunks = [] := by
  decide

/-- C4 (amended): in every state reachable by any sequence of searches,
observer writes and synthesis attempts, `awaiting_approval` is true iff the
most recent search whose backend call succeeded produced a nonempty chunk
list and no synthesis has run since; a search failing with a
backend/embedding exception leaves `awaiting_approval` unchanged. -/
theorem awaiting_approval_tracks_last_successful_search (ops : List Op) :
    (execOps initialRAGState ops).awaiting_approval
      = awaitingTrackerAmended initialRAGState false ops :=
  execOps_awaiting ops initialRAGState

/-! ### Config validation -/

/-- A remote config write with a similarity threshold of 2, outside [0, 1]. -/
def overThresholdConfig : SearchConfig :=
  { similarity_threshold := mkRat 2 1, max_results := 10, search_type := "hybrid" }

/-- A hybrid hit with a perfect combined score of 1.0. -/
def perfectHit : HybridHit := mkHybridHit "p1" "d1" (mkRat 1 1)

/-- C9 counterexample: a remotely written `similarity_threshold` of 2 is
stored verbatim — not clamped into [0, 1] — and takes effect unclamped: the
subsequent hybrid search drops a perfect-score (1.0) hit, which any threshold
clamped into [0, 1] would have kept; the semantic tool likewise passes an
out-of-range threshold to the backend as written. -/
theorem similarity_threshold_not_clamped :
    (setSearchConfig initialRAGState overThresholdConfig).search_config.similarity_threshold
        = mkRat 2 1
      ∧ ¬ ((setSearchConfig initialRAGState overThresholdConfig).search_config.similarity_threshold
            ≤ mkRat 1 1)
      ∧ (searchKnowledgeBase (setSearchConfig initialRAGState overThresholdConfig) "q" "t"
            ⟨Except.ok [perfectHit], Except.ok [], 1⟩).retrieved_chunks = []
      ∧ (semanticSearchParams none (some (mkRat 2 1)) 10 50 (mkRat 1 2)).2 = mkRat 2 1 := by
  decide

/-- C9 (amended): remote config writes are accepted, never rejected as fatal
(they are total field replacements); at search time the match count is capped
at the configured ceiling on both paths and the hybrid text weight is clamped
into [0, 1], but the similarity threshold is stored and used exactly as
written, with no range clamping. -/
theorem search_param_clamping (mc : Option Nat) (tw th : Option ℚ)
    (dmc mmc : Nat) (dtw dth : ℚ) :
    (hybridSearchParams mc tw dmc mmc dtw).1 ≤ mmc
      ∧ 0 ≤ (hybridSearchParams mc tw dmc mmc dtw).2
      ∧ (hybridSearchParams mc tw dmc mmc dtw).2 ≤ 1
      ∧ (semanticSearchParams mc th dmc mmc dth).1 ≤ mmc
      ∧ (semanticSearchParams mc th dmc mmc dth).2 = th.getD dth
      ∧ ∀ (s : RAGState) (c : SearchConfig), (setSearchConfig s c).search_config = c := by
  refine ⟨min_le_right _ _, le_max_left _ _, ?_, min_le_right _ _, rfl, fun s c => rfl⟩
  exact max_le zero_le_one (min_le_left _ _)
